import Mathlib

/-!
# Convective-Archive-Fetcher: the form assembled by `main`

Shallow embedding of `src/main.go`.  The program is one function, `main`, that wires
widgets of the `tview` terminal library together.  The calls into the library
(`NewForm`, `AddInputField`, `AddDropDown`, `AddTextView`, `AddButton`, `SetBorder`,
`SetTitle`, `SetTitleAlign`, `NewApplication`, `SetRoot`, `EnableMouse`, `Stop`) are
embedded as state-passing functions on records that hold what each call stores; `Run`,
whose result the program only inspects, is a parameter of `main`.
-/

namespace ConvectiveArchive

/-! ## Run-time state -/

/-- Go `error` values, identified by their message. -/
abbrev Error := String

/-- State of the event loop owned by the application object. -/
inductive LoopState
| running
| stopped
deriving DecidableEq, Repr

/-- Value currently held by a form item: the text of an input field or text view, or the
index of the selected option of a dropdown (`-1` when nothing is selected). -/
inductive Value
| text (s : String)
| option (index : Int)
deriving DecidableEq, Repr

/-- Mutable state a callback can reach through the variables `main` declares (`app` and
`form`): the loop state of the application and the values held by the form items, in item
order. -/
structure ProgState where
  loop : LoopState
  values : List Value
deriving DecidableEq, Repr

/-- Go `func()` closure, as a state transformer. -/
abbrev Handler := ProgState → ProgState

/-! ## Widgets -/

/-- Title alignment constants of the library: `AlignLeft`, `AlignCenter`, `AlignRight`. -/
inductive Align
| AlignLeft
| AlignCenter
| AlignRight
deriving DecidableEq, Repr

/-- Kind of a form item. -/
inductive ItemKind
| inputField
| dropDown
| textView
deriving DecidableEq, Repr

/-- Form item, holding the arguments of the `Add...` call that created it. -/
inductive FormItem
| inputField (label value : String) (fieldWidth : Int)
    (accept : Option (String → Char → Bool)) (changed : Option (String → Handler))
| dropDown (label : String) (options : List String) (initialOption : Int)
    (selected : Option (String → Int → Handler))
| textView (label text : String) (fieldWidth fieldHeight : Int)
    (dynamicColors scrollable : Bool)

/-- Button of a form: its label and the closure called when it is activated. -/
structure Button where
  label : String
  selected : Handler

/-- The form container: a box (border, title, title alignment) with items and buttons in
the order they were added. -/
structure Form where
  items : List FormItem
  buttons : List Button
  border : Bool
  title : String
  titleAlign : Align

/-- The application object, as configured before `Run`. -/
structure Application where
  root : Option Form
  fullscreen : Bool
  enableMouse : Bool

/-- Result of `main`. -/
inductive Outcome
| returned
| panicked (value : Error)
deriving DecidableEq, Repr

/-! ## Library calls used by `main` -/

/-- `tview.NewApplication()`. -/
def NewApplication : Application :=
  { root := none, fullscreen := false, enableMouse := false }

/-- `tview.NewForm()`: an empty form in a borderless, untitled box. -/
def NewForm : Form :=
  { items := [], buttons := [], border := false, title := "", titleAlign := Align.AlignCenter }

/-- `Form.AddInputField(label, value, fieldWidth, accept, changed)`. -/
def Form.AddInputField (f : Form) (label value : String) (fieldWidth : Int)
    (accept : Option (String → Char → Bool)) (changed : Option (String → Handler)) : Form :=
  { f with items := f.items ++ [FormItem.inputField label value fieldWidth accept changed] }

/-- `Form.AddDropDown(label, options, initialOption, selected)`. -/
def Form.AddDropDown (f : Form) (label : String) (options : List String) (initialOption : Int)
    (selected : Option (String → Int → Handler)) : Form :=
  { f with items := f.items ++ [FormItem.dropDown label options initialOption selected] }

/-- `Form.AddTextView(label, text, fieldWidth, fieldHeight, dynamicColors, scrollable)`. -/
def Form.AddTextView (f : Form) (label text : String) (fieldWidth fieldHeight : Int)
    (dynamicColors scrollable : Bool) : Form :=
  { f with items := f.items ++
      [FormItem.textView label text fieldWidth fieldHeight dynamicColors scrollable] }

/-- `Form.AddButton(label, selected)`. -/
def Form.AddButton (f : Form) (label : String) (selected : Handler) : Form :=
  { f with buttons := f.buttons ++ [{ label := label, selected := selected }] }

/-- `Box.SetBorder(show)`. -/
def Form.SetBorder (f : Form) (b : Bool) : Form := { f with border := b }

/-- `Box.SetTitle(title)`. -/
def Form.SetTitle (f : Form) (title : String) : Form := { f with title := title }

/-- `Box.SetTitleAlign(align)`. -/
def Form.SetTitleAlign (f : Form) (align : Align) : Form := { f with titleAlign := align }

/-- `Application.SetRoot(root, fullscreen)`. -/
def Application.SetRoot (app : Application) (root : Form) (fullscreen : Bool) : Application :=
  { app with root := some root, fullscreen := fullscreen }

/-- `Application.EnableMouse(enable)`. -/
def Application.EnableMouse (app : Application) (enable : Bool) : Application :=
  { app with enableMouse := enable }

/-- `Application.Stop()`: stops the event loop of `app`. -/
def Application.Stop (_app : Application) (s : ProgState) : ProgState :=
  { s with loop := LoopState.stopped }

/-! ## The program -/

/-- The `app` variable of `main` (line 11). -/
def mainApp : Application := NewApplication

/-- The `form` variable of `main` after the builder chain of lines 12-24. -/
def builtForm : Form :=
  let app := mainApp
  (((((((NewForm.AddInputField
    "City" "" 30 none none).AddInputField
    "State" "" 30 none none).AddDropDown
    "Month" ["January", "February", "March", "April", "May", "June", "July", "August",
      "September", "October", "December"] 0 none).AddDropDown
    "Day" ["1", "2", "3", "4", "5", "6", "7", "8", "9", "10", "11", "12", "13", "14", "15",
      "16", "17", "18", "19", "20", "21", "22", "23", "24", "25", "26", "27", "28", "29",
      "30", "31"] 0 none).AddDropDown
    "Year" ["2000", "2001", "2002", "2003", "2004", "2005", "2006", "2007", "2008", "2009",
      "2010", "2011", "2012", "2013", "2014", "2015", "2016", "2017", "2018", "2019", "2020",
      "2021", "2022", "2023", "2024", "2025"] 0 none).AddTextView
    "Note: " "The threshold is optional" 40 2 true false).AddButton
    "Save" (fun s => app.Stop s)).AddButton
    "Quit" (fun s => app.Stop s)

/-- The form after line 25: `form.SetBorder(true).SetTitle(..).SetTitleAlign(..)`. -/
def mainForm : Form :=
  ((builtForm.SetBorder true).SetTitle "Convective Archive").SetTitleAlign Align.AlignCenter

/-- The application on which line 26 calls `Run`:
`app.SetRoot(form, true).EnableMouse(true)`. -/
def configuredApp : Application :=
  (mainApp.SetRoot mainForm true).EnableMouse true

/-- The function `main`; `Run` is the library event loop, returning `none` for a nil
error. -/
def main (Run : Application → Option Error) : Outcome :=
  match Run configuredApp with
  | some err => Outcome.panicked err
  | none => Outcome.returned

/-! ## Observations on a form -/

/-- Kind of a form item. -/
def FormItem.kind : FormItem → ItemKind
| FormItem.inputField _ _ _ _ _ => ItemKind.inputField
| FormItem.dropDown _ _ _ _ => ItemKind.dropDown
| FormItem.textView _ _ _ _ _ _ => ItemKind.textView

/-- Label of a form item (`FormItem.GetLabel`). -/
def FormItem.label : FormItem → String
| FormItem.inputField label _ _ _ _ => label
| FormItem.dropDown label _ _ _ => label
| FormItem.textView label _ _ _ _ _ => label

/-- Whether the item takes user input (an input field or a dropdown). -/
def FormItem.isInput (it : FormItem) : Bool :=
  it.kind != ItemKind.textView

/-- Option list of a form item: the `options` argument of a dropdown, empty otherwise. -/
def FormItem.options : FormItem → List String
| FormItem.dropDown _ options _ _ => options
| _ => []

/-- Whether the item was created without any callback: nil `accept` and `changed` for an
input field, nil `selected` for a dropdown. -/
def FormItem.callbackFree : FormItem → Bool
| FormItem.inputField _ _ _ none none => true
| FormItem.inputField _ _ _ _ _ => false
| FormItem.dropDown _ _ _ none => true
| FormItem.dropDown _ _ _ _ => false
| FormItem.textView _ _ _ _ _ _ => true

/-- First item of the form with the given label (`Form.GetFormItemByLabel`). -/
def Form.GetFormItemByLabel (f : Form) (label : String) : Option FormItem :=
  f.items.find? (fun it => it.label == label)

/-- Option list of the dropdown with the given label. -/
def Form.optionsOf (f : Form) (label : String) : List String :=
  match f.GetFormItemByLabel label with
  | some it => it.options
  | none => []

/-- Initial option index passed when the dropdown with the given label was added. -/
def Form.initialOptionOf (f : Form) (label : String) : Option Int :=
  match f.GetFormItemByLabel label with
  | some (FormItem.dropDown _ _ initialOption _) => some initialOption
  | _ => none

/-- Initial text and field width passed when the input field with the given label was
added. -/
def Form.inputFieldOf (f : Form) (label : String) : Option (String × Int) :=
  match f.GetFormItemByLabel label with
  | some (FormItem.inputField _ value fieldWidth _ _) => some (value, fieldWidth)
  | _ => none

/-- Text of the option at a Go `int` index; `none` when the index is out of range. -/
def optionText (options : List String) (index : Int) : Option String :=
  if 0 ≤ index then options[index.toNat]? else none

/-- Initially selected option text of the dropdown with the given label. -/
def Form.initialOptionTextOf (f : Form) (label : String) : Option String :=
  match f.initialOptionOf label with
  | some index => optionText (f.optionsOf label) index
  | none => none

/-- The twelve English month names in calendar order (reference list for the Month
dropdown). -/
def calendarMonths : List String :=
  ["January", "February", "March", "April", "May", "June", "July", "August", "September",
    "October", "November", "December"]

/-! ## Event loop

Model of how the library's event loop drives the root form: a user event either edits the
value held by an item (calling the item's callbacks when they are not nil) or activates a
button (calling the closure given to `AddButton`). -/

/-- User events delivered to the form. -/
inductive Event
| typeText (item : Nat) (text : String) (lastChar : Char)
| selectOption (item : Nat) (index : Nat)
| pressButton (button : Nat)
deriving DecidableEq, Repr

/-- Whether the event edits a field value (it is not a button activation). -/
def Event.isEdit : Event → Bool
| Event.pressButton _ => false
| _ => true

/-- Value an item holds when the form is first displayed.  A dropdown whose initial index
is out of range holds `-1` (`DropDown.SetCurrentOption`). -/
def FormItem.initialValue : FormItem → Value
| FormItem.inputField _ value _ _ _ => Value.text value
| FormItem.dropDown _ options initialOption _ =>
    if 0 ≤ initialOption ∧ initialOption < options.length then Value.option initialOption
    else Value.option (-1)
| FormItem.textView _ text _ _ _ _ => Value.text text

/-- State in which the event loop starts: running, every item holding its initial value. -/
def Form.initialState (f : Form) : ProgState :=
  { loop := LoopState.running, values := f.items.map FormItem.initialValue }

/-- One event handled by the form.  Typing into an input field stores the new text unless
a non-nil `accept` rejects it, then calls a non-nil `changed`; selecting an option of a
dropdown stores its index, then calls a non-nil `selected`; activating a button calls its
closure.  Events addressed to an item or button that does not exist change nothing. -/
def Form.dispatch (f : Form) (s : ProgState) : Event → ProgState
| Event.typeText i text lastChar =>
    match f.items[i]? with
    | some (FormItem.inputField _ _ _ accept changed) =>
        let ok := match accept with
          | none => true
          | some a => a text lastChar
        if ok then
          let s1 : ProgState := { s with values := s.values.set i (Value.text text) }
          match changed with
          | none => s1
          | some c => c text s1
        else s
    | _ => s
| Event.selectOption i index =>
    match f.items[i]? with
    | some (FormItem.dropDown _ options _ selected) =>
        match options[index]? with
        | some opt =>
            let s1 : ProgState := { s with values := s.values.set i (Value.option index) }
            match selected with
            | none => s1
            | some c => c opt index s1
        | none => s
    | _ => s
| Event.pressButton b =>
    match f.buttons[b]? with
    | some btn => btn.selected s
    | none => s

/-- The event loop on a list of events: events are handled in order while the loop is
running; once it is stopped the remaining events are not handled. -/
def Form.runLoop (f : Form) : ProgState → List Event → ProgState
| s, [] => s
| s, e :: es =>
    match s.loop with
    | LoopState.stopped => s
    | LoopState.running => f.runLoop (f.dispatch s e) es

/-- Model of `Application.Run()`: `screenErr` is the error, if any, of initialising the
terminal screen, which `Run` returns at once; otherwise the loop handles the events from
state `init` and `Run` returns a nil error.  The result is the final state and the error. -/
def Application.Run (app : Application) (screenErr : Option Error) (init : ProgState)
    (events : List Event) : ProgState × Option Error :=
  match screenErr with
  | some err => (init, some err)
  | none =>
      match app.root with
      | some form => (form.runLoop init events, none)
      | none => (init, none)

/-- Closure called when the button at index `i` of the form is activated; the identity
when there is no such button. -/
def Form.buttonAction (f : Form) (i : Nat) : Handler :=
  match f.buttons[i]? with
  | some btn => btn.selected
  | none => id

/-- Field values of the five input controls followed by the text of the note, in item
order. -/
def fieldValues (city state : String) (month day year : Int) : List Value :=
  [Value.text city, Value.text state, Value.option month, Value.option day,
    Value.option year, Value.text "The threshold is optional"]

/-- A run of the program in which the terminal screen comes up, the loop starts in state
`init` and the user produces `events`: the loop state the event loop ends in, and the
result of `main`. -/
def session (init : ProgState) (events : List Event) : LoopState × Outcome :=
  let Run := fun (app : Application) => app.Run none init events
  ((Run configuredApp).1.loop, main (fun app => (Run app).2))

/-! ## General facts about the event loop -/

/-- On a form whose items carry no callback, an edit event leaves the loop state as it
was. -/
theorem Form.dispatch_isEdit_loop (f : Form) (hf : ∀ it ∈ f.items, it.callbackFree = true)
    (s : ProgState) (e : Event) (he : e.isEdit = true) :
    (f.dispatch s e).loop = s.loop := by
  cases e with
  | pressButton b => simp [Event.isEdit] at he
  | typeText i text c =>
    simp only [Form.dispatch]
    cases hget : f.items[i]? with
    | none => rfl
    | some it =>
      have hcb := hf it (List.getElem?_mem hget)
      cases it with
      | inputField label value w accept changed =>
        cases accept with
        | some a => exact absurd hcb (by simp [FormItem.callbackFree])
        | none =>
          cases changed with
          | some g => exact absurd hcb (by simp [FormItem.callbackFree])
          | none => rfl
      | dropDown label options init selected => rfl
      | textView label text w h d sc => rfl
  | selectOption i idx =>
    simp only [Form.dispatch]
    cases hget : f.items[i]? with
    | none => rfl
    | some it =>
      have hcb := hf it (List.getElem?_mem hget)
      cases it with
      | inputField label value w accept changed => rfl
      | dropDown label options init selected =>
        cases selected with
        | some g => exact absurd hcb (by simp [FormItem.callbackFree])
        | none =>
          cases hopt : options[idx]? with
          | none => simp only [hopt]
          | some opt => simp only [hopt]
      | textView label text w h d sc => rfl

/-- On a form whose items carry no callback, a run of edit events from a running state ends
in a running state. -/
theorem Form.runLoop_edits_running (f : Form) (hf : ∀ it ∈ f.items, it.callbackFree = true)
    (edits : List Event) (hedits : ∀ e ∈ edits, e.isEdit = true) :
    ∀ s : ProgState, s.loop = LoopState.running →
      (f.runLoop s edits).loop = LoopState.running := by
  induction edits with
  | nil => intro s hs; simpa [Form.runLoop] using hs
  | cons e es ih =>
    intro s hs
    have he : e.isEdit = true := hedits e (List.mem_cons_self e es)
    have hes : ∀ x ∈ es, x.isEdit = true := fun x hx => hedits x (List.mem_cons_of_mem e hx)
    have hstep : (f.dispatch s e).loop = LoopState.running := by
      rw [Form.dispatch_isEdit_loop f hf s e he]; exact hs
    simp only [Form.runLoop, hs]
    exact ih hes _ hstep

/-- Running `xs ++ ys` is running `ys` from the state reached by `xs`, when that state is
still running. -/
theorem Form.runLoop_append (f : Form) (xs ys : List Event) :
    ∀ s : ProgState, (f.runLoop s xs).loop = LoopState.running →
      f.runLoop s (xs ++ ys) = f.runLoop (f.runLoop s xs) ys := by
  induction xs with
  | nil => intro s _; rfl
  | cons e es ih =>
    intro s hs
    cases hl : s.loop with
    | stopped =>
      simp only [Form.runLoop, hl] at hs
      cases hs
    | running =>
      simp only [Form.runLoop, hl, List.cons_append] at hs ⊢
      exact ih _ hs

/-- The items of the form built by `main` carry no callback. -/
theorem mainForm_callbackFree : ∀ it ∈ mainForm.items, it.callbackFree = true := by
  intro it hit
  simp [mainForm, builtForm, Form.SetBorder, Form.SetTitle, Form.SetTitleAlign, Form.AddButton,
    Form.AddTextView, Form.AddDropDown, Form.AddInputField, NewForm] at hit
  rcases hit with h | h | h | h | h | h <;> subst h <;> rfl

/-- In a list without duplicates, equal entries sit at equal indices. -/
theorem index_eq_of_nodup (l : List String) (hl : l.Nodup) (i j : Nat) (hi : i < l.length)
    (hj : j < l.length) (h : l[i]? = l[j]?) : i = j := by
  rw [List.getElem?_eq_getElem hi, List.getElem?_eq_getElem hj] at h
  exact (List.Nodup.getElem_inj_iff hl).mp (Option.some.inj h)

/-! ## The form layout -/

/-- C1: the items of the form built by `main` are, in order, the input fields "City" and
"State", the dropdowns "Month", "Day" and "Year", and one text view (the note); the
buttons are, in order, "Save" and "Quit"; the input controls are exactly the first five
items. -/
theorem C1_form_items_and_buttons :
    mainForm.items.map (fun it => (it.kind, it.label)) =
        [(ItemKind.inputField, "City"), (ItemKind.inputField, "State"),
          (ItemKind.dropDown, "Month"), (ItemKind.dropDown, "Day"),
          (ItemKind.dropDown, "Year"), (ItemKind.textView, "Note: ")] ∧
      mainForm.buttons.map Button.label = ["Save", "Quit"] ∧
      (mainForm.items.filter FormItem.isInput).map FormItem.label =
        ["City", "State", "Month", "Day", "Year"] ∧
      mainForm.items.length = 6 ∧ mainForm.buttons.length = 2 := by
  decide

/-- C2: the "Month" dropdown has 11 options: the twelve calendar month names in order with
"November" removed.  "November" is not an option, every other month name is, "October" is
at index 9 and "December" at index 10. -/
theorem C2_month_options :
    (mainForm.optionsOf "Month").length = 11 ∧
      calendarMonths.length = 12 ∧
      mainForm.optionsOf "Month" = calendarMonths.erase "November" ∧
      "November" ∉ mainForm.optionsOf "Month" ∧
      (∀ m ∈ calendarMonths, m ≠ "November" → m ∈ mainForm.optionsOf "Month") ∧
      (mainForm.optionsOf "Month")[9]? = some "October" ∧
      (mainForm.optionsOf "Month")[10]? = some "December" := by
  decide

/-- C3: the "Day" dropdown has 31 options and the option at index `i` is the decimal
rendering of `i + 1`: the list is "1", "2", ..., "31". -/
theorem C3_day_options :
    (mainForm.optionsOf "Day").length = 31 ∧
      (∀ i, i < 31 → (mainForm.optionsOf "Day")[i]? = some (Nat.repr (i + 1))) ∧
      mainForm.optionsOf "Day" = (List.range 31).map (fun i => Nat.repr (i + 1)) := by
  decide

/-- C4: the "Year" dropdown has 26 options and the option at index `i` is the decimal
rendering of `2000 + i`: the list is "2000", "2001", ..., "2025". -/
theorem C4_year_options :
    (mainForm.optionsOf "Year").length = 26 ∧
      (∀ i, i < 26 → (mainForm.optionsOf "Year")[i]? = some (Nat.repr (2000 + i))) ∧
      mainForm.optionsOf "Year" = (List.range 26).map (fun i => Nat.repr (2000 + i)) := by
  decide

/-- C9: each dropdown is created with initial index 0, which is a valid index of its option
list; the initially selected options are "January", "1" and "2000"; the input fields "City"
and "State" start with the empty text and field width 30. -/
theorem C9_initial_selection :
    (∀ label ∈ ["Month", "Day", "Year"],
        mainForm.initialOptionOf label = some 0 ∧ 0 < (mainForm.optionsOf label).length ∧
          (mainForm.initialOptionTextOf label).isSome = true) ∧
      mainForm.initialOptionTextOf "Month" = some "January" ∧
      mainForm.initialOptionTextOf "Day" = some "1" ∧
      mainForm.initialOptionTextOf "Year" = some "2000" ∧
      mainForm.inputFieldOf "City" = some ("", 30) ∧
      mainForm.inputFieldOf "State" = some ("", 30) ∧
      mainForm.initialState.values = fieldValues "" "" 0 0 0 := by
  decide

/-- C10: the options of each dropdown are pairwise distinct, so an option text determines
its index; the labels of the five input controls are pairwise distinct and non-empty. -/
theorem C10_options_and_labels_distinct :
    (∀ label ∈ ["Month", "Day", "Year"],
        (mainForm.optionsOf label).Nodup ∧
          ∀ i j, i < (mainForm.optionsOf label).length →
            j < (mainForm.optionsOf label).length →
            (mainForm.optionsOf label)[i]? = (mainForm.optionsOf label)[j]? → i = j) ∧
      ((mainForm.items.filter FormItem.isInput).map FormItem.label).Nodup ∧
      (∀ l ∈ (mainForm.items.filter FormItem.isInput).map FormItem.label, l ≠ "") := by
  refine ⟨?_, by decide, by decide⟩
  intro label hlabel
  have hnodup : (mainForm.optionsOf label).Nodup := by
    revert label
    decide
  exact ⟨hnodup, fun i j hi hj h => index_eq_of_nodup _ hnodup i j hi hj h⟩

/-! ## Behaviour of the buttons and of `main` -/

/-- C5: activating "Save" (button 0) or "Quit" (button 1) puts the loop in the stopped
state from every state; the two button closures are equal as functions; and every event
either leaves the loop state as it was or takes it from running to stopped, so a stopped
loop stays stopped. -/
theorem C5_buttons_stop_loop :
    mainForm.buttons.map Button.label = ["Save", "Quit"] ∧
      (∀ s : ProgState, (mainForm.buttonAction 0 s).loop = LoopState.stopped ∧
        (mainForm.buttonAction 1 s).loop = LoopState.stopped) ∧
      mainForm.buttonAction 0 = mainForm.buttonAction 1 ∧
      (∀ (s : ProgState) (b : Nat),
        mainForm.dispatch s (Event.pressButton b) = mainForm.buttonAction b s) ∧
      (∀ (s : ProgState) (e : Event), (mainForm.dispatch s e).loop = s.loop ∨
        (s.loop = LoopState.running ∧ (mainForm.dispatch s e).loop = LoopState.stopped)) ∧
      (∀ (s : ProgState) (e : Event), s.loop = LoopState.stopped →
        (mainForm.dispatch s e).loop = LoopState.stopped) ∧
      (∀ (s : ProgState) (events : List Event), s.loop = LoopState.stopped →
        (mainForm.runLoop s events).loop = LoopState.stopped) := by
  have hstep : ∀ (s : ProgState) (e : Event), (mainForm.dispatch s e).loop = s.loop ∨
      (s.loop = LoopState.running ∧ (mainForm.dispatch s e).loop = LoopState.stopped) := by
    intro s e
    cases he : e.isEdit with
    | true => exact Or.inl (Form.dispatch_isEdit_loop mainForm mainForm_callbackFree s e he)
    | false =>
      cases e with
      | typeText i text c => simp [Event.isEdit] at he
      | selectOption i idx => simp [Event.isEdit] at he
      | pressButton b =>
        match b with
        | 0 | 1 =>
          cases hl : s.loop with
          | running => exact Or.inr ⟨rfl, rfl⟩
          | stopped => exact Or.inl rfl
        | n + 2 => exact Or.inl rfl
  refine ⟨by decide, fun s => ⟨rfl, rfl⟩, rfl, ?_, hstep, ?_, ?_⟩
  · intro s b
    simp only [Form.dispatch, Form.buttonAction]
    cases mainForm.buttons[b]? <;> rfl
  · intro s e hs
    rcases hstep s e with h | ⟨h, _⟩
    · rw [h]; exact hs
    · rw [hs] at h; cases h
  · intro s events hs
    cases events with
    | nil => exact hs
    | cons e es => simp only [Form.runLoop, hs]

/-- C6: every item of the form is created without callbacks (nil `accept`, `changed` and
`selected`); the loop state reached by activating a button is the same whatever values the
items hold; whatever values they hold, a run in which "Save" or "Quit" is activated ends
stopped with `main` returning normally; so does a run in which the user first edits fields
in any way and then activates "Save" or "Quit"; and the two button closures only set the
loop state, leaving the values as they are. -/
theorem C6_field_values_not_read :
    (∀ it ∈ mainForm.items, it.callbackFree = true) ∧
      (∀ (l : LoopState) (v1 v2 : List Value) (b : Nat),
        (mainForm.dispatch { loop := l, values := v1 } (Event.pressButton b)).loop =
          (mainForm.dispatch { loop := l, values := v2 } (Event.pressButton b)).loop) ∧
      (∀ (v1 v2 : List Value) (b : Nat),
        session { loop := LoopState.running, values := v1 } [Event.pressButton b] =
          session { loop := LoopState.running, values := v2 } [Event.pressButton b]) ∧
      (∀ v : List Value,
        session { loop := LoopState.running, values := v } [Event.pressButton 0] =
            (LoopState.stopped, Outcome.returned) ∧
          session { loop := LoopState.running, values := v } [Event.pressButton 1] =
            (LoopState.stopped, Outcome.returned)) ∧
      (∀ (edits : List Event) (b : Nat), (∀ e ∈ edits, e.isEdit = true) → b < 2 →
        session mainForm.initialState (edits ++ [Event.pressButton b]) =
          (LoopState.stopped, Outcome.returned)) ∧
      (∀ s : ProgState,
        mainForm.buttonAction 0 s = { loop := LoopState.stopped, values := s.values } ∧
          mainForm.buttonAction 1 s = { loop := LoopState.stopped, values := s.values }) := by
  refine ⟨mainForm_callbackFree, ?_, ?_, fun v => ⟨rfl, rfl⟩, ?_, fun s => ⟨rfl, rfl⟩⟩
  · intro l v1 v2 b
    match b with
    | 0 | 1 => rfl
    | n + 2 => rfl
  · intro v1 v2 b
    match b with
    | 0 | 1 => rfl
    | n + 2 => rfl
  · intro edits b hedits hb
    have hrun : (mainForm.runLoop mainForm.initialState edits).loop = LoopState.running :=
      Form.runLoop_edits_running mainForm mainForm_callbackFree edits hedits _ rfl
    have hsplit := Form.runLoop_append mainForm edits [Event.pressButton b] _ hrun
    have hloop : (mainForm.runLoop mainForm.initialState
        (edits ++ [Event.pressButton b])).loop = LoopState.stopped := by
      rw [hsplit]
      simp only [Form.runLoop, hrun]
      match b, hb with
      | 0, _ => rfl
      | 1, _ => rfl
    show ((mainForm.runLoop mainForm.initialState (edits ++ [Event.pressButton b])).loop,
      Outcome.returned) = (LoopState.stopped, Outcome.returned)
    rw [hloop]

/-- Instance of C6: the user types a city and a state, selects February (index 1), day 31
(index 30) and year 2024 (index 24), then activates "Save"; the run ends stopped and `main`
returns normally. -/
theorem C6_field_values_not_read_witness :
    session mainForm.initialState
        ([Event.typeText 0 "Tulsa" 'a', Event.typeText 1 "OK" 'K', Event.selectOption 2 1,
            Event.selectOption 3 30, Event.selectOption 4 24] ++ [Event.pressButton 0]) =
      (LoopState.stopped, Outcome.returned) :=
  C6_field_values_not_read.2.2.2.2.1 _ 0 (by decide) (by decide)

/-- C7: `main` panics exactly when `Run` returns a non-nil error, with that error as the
panic value, and returns normally exactly when `Run` returns nil. -/
theorem C7_panic_iff_run_error (Run : Application → Option Error) :
    (∀ err : Error, main Run = Outcome.panicked err ↔ Run configuredApp = some err) ∧
      (main Run = Outcome.returned ↔ Run configuredApp = none) := by
  unfold main
  cases h : Run configuredApp with
  | none => simp
  | some e => simp

/-- Instance of C7: when `Run` fails with the error "terminal not found", `main` panics
with that error. -/
theorem C7_panic_iff_run_error_witness :
    main (fun _ => some "terminal not found") = Outcome.panicked "terminal not found" :=
  ((C7_panic_iff_run_error (fun _ => some "terminal not found")).1 "terminal not found").2 rfl

/-- C8: the application on which `main` calls `Run` has the form as root, displayed
fullscreen, with mouse input enabled; the form has its border enabled, the title
"Convective Archive" and a centered title. -/
theorem C8_configuration_before_run :
    mainForm.border = true ∧ mainForm.title = "Convective Archive" ∧
      mainForm.titleAlign = Align.AlignCenter ∧
      configuredApp.root = some mainForm ∧ configuredApp.fullscreen = true ∧
      configuredApp.enableMouse = true ∧
      (∀ Run : Application → Option Error, main Run = main (fun _ => Run configuredApp)) := by
  exact ⟨rfl, rfl, rfl, rfl, rfl, rfl, fun _ => rfl⟩


end ConvectiveArchive
